import Mathlib

/-!
Verification of the next_banking repository server actions against its
natural-language specification.

The TypeScript server actions are shallowly embedded as pure Lean functions.
External vendor calls (the identity provider client, the Dwolla payment
network, the generated Checkbook SDK) are passed in as explicit behaviours
(`Except Unit _` values or functions), so each embedded action is a pure
function of its inputs, the vendor behaviour and the incoming cookie jar.
Each action additionally returns the list of observable events it performed,
in order, which is how sequencing and never-attempted claims are stated.
JavaScript `undefined` is modelled as `Option.none` (or `JsValue.undef` where
the distinction between `undefined` and `null` matters).
-/

set_option autoImplicit false

namespace NextBanking

/-- A JavaScript value that distinguishes `undefined`, `null` and a real value;
needed because `getLoggedInUser` returns `null` in its catch branch while the
other actions fall off the end and resolve `undefined`. -/
inductive JsValue (α : Type) where
  | undef
  | null
  | val (a : α)
  deriving DecidableEq, Repr

/-- True exactly on the JavaScript value `undefined`. -/
def JsValue.isUndef {α : Type} : JsValue α → Bool
  | .undef => true
  | _ => false

/-- The attribute record passed to `cookies().set` in user.actions.ts. -/
structure CookieOptions where
  path : String
  httpOnly : Bool
  sameSite : String
  secure : Bool
  deriving DecidableEq, Repr

/-- The browser cookie jar visible to the server action: name, value, options. -/
abbrev CookieJar := List (String × String × CookieOptions)

/-- Effect of `cookies().set(name, value, options)`: the cookie replaces any
previous cookie of the same name. -/
def setCookie (jar : CookieJar) (name value : String) (opts : CookieOptions) : CookieJar :=
  (name, value, opts) :: jar.filter (fun c => c.1 ≠ name)

/-- Effect of `cookies().delete(name)`. -/
def deleteCookie (jar : CookieJar) (name : String) : CookieJar :=
  jar.filter (fun c => c.1 ≠ name)

/-- Read back a cookie by name: its value and attributes, if present. -/
def getCookie (jar : CookieJar) (name : String) : Option (String × CookieOptions) :=
  (jar.find? (fun c => decide (c.1 = name))).map (fun c => c.2)

/-- A session issued by the identity provider; the embedding keeps only the
field user.actions.ts reads, namely `session.secret`. -/
structure Session where
  secret : String
  deriving DecidableEq, Repr

/-- An account record returned by the identity provider, kept opaque. -/
structure UserAccount where
  raw : String
  deriving DecidableEq, Repr

/-- Modelled from the spec: `parseStringify` lives in src/lib/utils, which is
not under src/ (only its callers are). It is the JSON
serialize-then-parse round trip used to return plain data from a server
action; on the plain data modelled here it is the identity. -/
def parseStringify {α : Type} (a : α) : α := a

/-- Observable events of the identity server actions, in execution order. -/
inductive UAEvent where
  | adminClientCall
  | sessionClientCall
  | accountCreateCall (id email password name : String)
  | createSessionCall (email password : String)
  | cookieSetCall (name value : String) (opts : CookieOptions)
  | cookieDeleteCall (name : String)
  | deleteSessionCall (which : String)
  | accountGetCall
  | logError
  deriving DecidableEq, Repr

/-- True exactly on a `cookieSetCall` event. -/
def UAEvent.isCookieSet : UAEvent → Bool
  | .cookieSetCall _ _ _ => true
  | _ => false

/-- True exactly on a `cookieDeleteCall` event. -/
def UAEvent.isCookieDelete : UAEvent → Bool
  | .cookieDeleteCall _ => true
  | _ => false

/-- True exactly on a `deleteSessionCall` event (vendor session deletion). -/
def UAEvent.isVendorSessionDelete : UAEvent → Bool
  | .deleteSessionCall _ => true
  | _ => false

/-- Checks that in the trace, the first event satisfying `isB` (if any) comes
strictly after an event satisfying `isA`: scanning left to right, we must
meet an `isA` event before any `isB` event. -/
def precededBy (isA isB : UAEvent → Bool) : List UAEvent → Bool
  | [] => true
  | x :: xs =>
      if isB x then false
      else if isA x then true
      else precededBy isA isB xs

/-- Vendor behaviour consumed by `signIn`: the outcome of
`createAdminClient()` and of `account.createEmailPasswordSession`. An
`Except.error` models the call throwing. -/
structure SignInEnv where
  adminClient : Except Unit Unit
  createEmailPasswordSession : Except Unit Session
  deriving Repr

/-- Embedding of `signIn` from src/lib/actions/user.actions.ts: create the
admin client, create an email/password session, set the `appwrite-session`
cookie with the literal attribute record from the source, return the
stringified session; any throw is caught, logged, and the action falls off
the end returning undefined (`none`). -/
def signIn (env : SignInEnv) (email password : String) (jar : CookieJar) :
    Option Session × CookieJar × List UAEvent :=
  match env.adminClient with
  | .error _ => (none, jar, [.adminClientCall, .logError])
  | .ok _ =>
      match env.createEmailPasswordSession with
      | .error _ => (none, jar,
          [.adminClientCall, .createSessionCall email password, .logError])
      | .ok session =>
          (some (parseStringify session),
           setCookie jar "appwrite-session" session.secret
             { path := "/", httpOnly := true, sameSite := "strict", secure := true },
           [.adminClientCall, .createSessionCall email password,
            .cookieSetCall "appwrite-session" session.secret
              { path := "/", httpOnly := true, sameSite := "strict", secure := true }])

/-- The argument record of `signUp` (the SignUpParams type of the repo). -/
structure SignUpParams where
  firstName : String
  lastName : String
  address1 : String
  city : String
  state : String
  postalCode : String
  dateOfBirth : String
  ssn : String
  email : String
  password : String
  deriving DecidableEq, Repr

/-- Vendor behaviour consumed by `signUp`: outcome of `createAdminClient()`,
the fresh id produced by `ID.unique()`, and the outcomes of `account.create`
and `account.createEmailPasswordSession`. -/
structure SignUpEnv where
  adminClient : Except Unit Unit
  uniqueId : String
  accountCreate : Except Unit UserAccount
  createEmailPasswordSession : Except Unit Session
  deriving Repr

/-- Embedding of `signUp` from src/lib/actions/user.actions.ts: create the
admin client, create the account with `ID.unique()`, email, password and the
display name built as firstName ++ " " ++ lastName, create an email/password
session, set the `appwrite-session` cookie with the literal attribute record
from the source, and return the stringified new account; any throw is caught,
logged, and the action returns undefined (`none`). -/
def signUp (env : SignUpEnv) (userData : SignUpParams) (jar : CookieJar) :
    Option UserAccount × CookieJar × List UAEvent :=
  match env.adminClient with
  | .error _ => (none, jar, [.adminClientCall, .logError])
  | .ok _ =>
      match env.accountCreate with
      | .error _ => (none, jar,
          [.adminClientCall,
           .accountCreateCall env.uniqueId userData.email userData.password
             (userData.firstName ++ " " ++ userData.lastName),
           .logError])
      | .ok newUserAccount =>
          match env.createEmailPasswordSession with
          | .error _ => (none, jar,
              [.adminClientCall,
               .accountCreateCall env.uniqueId userData.email userData.password
                 (userData.firstName ++ " " ++ userData.lastName),
               .createSessionCall userData.email userData.password,
               .logError])
          | .ok session =>
              (some (parseStringify newUserAccount),
               setCookie jar "appwrite-session" session.secret
                 { path := "/", httpOnly := true, sameSite := "strict", secure := true },
               [.adminClientCall,
                .accountCreateCall env.uniqueId userData.email userData.password
                  (userData.firstName ++ " " ++ userData.lastName),
                .createSessionCall userData.email userData.password,
                .cookieSetCall "appwrite-session" session.secret
                  { path := "/", httpOnly := true, sameSite := "strict", secure := true }])

/-- Vendor behaviour consumed by `logoutAccount`: outcome of
`createSessionClient()`, of `cookies().delete` and of
`account.deleteSession("current")`. -/
structure LogoutEnv where
  sessionClient : Except Unit Unit
  cookieDelete : Except Unit Unit
  deleteSession : Except Unit Unit
  deriving Repr

/-- Embedding of `logoutAccount` from src/lib/actions/user.actions.ts: create
the session client, delete the `appwrite-session` cookie, delete the current
vendor session, return `true`; any throw is caught, logged, and the action
returns undefined (`none`). -/
def logoutAccount (env : LogoutEnv) (jar : CookieJar) :
    Option Bool × CookieJar × List UAEvent :=
  match env.sessionClient with
  | .error _ => (none, jar, [.sessionClientCall, .logError])
  | .ok _ =>
      match env.cookieDelete with
      | .error _ => (none, jar,
          [.sessionClientCall, .cookieDeleteCall "appwrite-session", .logError])
      | .ok _ =>
          let jar1 := deleteCookie jar "appwrite-session"
          match env.deleteSession with
          | .error _ => (none, jar1,
              [.sessionClientCall, .cookieDeleteCall "appwrite-session",
               .deleteSessionCall "current", .logError])
          | .ok _ => (some true, jar1,
              [.sessionClientCall, .cookieDeleteCall "appwrite-session",
               .deleteSessionCall "current"])

/-- Vendor behaviour consumed by `getLoggedInUser`: outcome of
`createSessionClient()` and of `account.get()`. -/
structure GetUserEnv where
  sessionClient : Except Unit Unit
  accountGet : Except Unit UserAccount
  deriving Repr

/-- Embedding of `getLoggedInUser` from src/lib/actions/user.actions.ts:
create the session client, fetch the current account, return it stringified;
any throw is caught, logged, and the catch branch explicitly returns `null`
(not undefined). -/
def getLoggedInUser (env : GetUserEnv) : JsValue UserAccount × List UAEvent :=
  match env.sessionClient with
  | .error _ => (.null, [.sessionClientCall, .logError])
  | .ok _ =>
      match env.accountGet with
      | .error _ => (.null, [.sessionClientCall, .accountGetCall, .logError])
      | .ok u => (.val (parseStringify u), [.sessionClientCall, .accountGetCall])

/-- The funding-source registration options built by `addFundingSource`:
customer id, display name, Plaid processor token, and the authorization
links from the grant step. The links field is `Option` because the value
returned by `createOnDemandAuthorization` can be undefined. -/
structure FundingSourceOptions where
  customerId : String
  fundingSourceName : String
  plaidToken : String
  links : Option String
  deriving DecidableEq, Repr

/-- One href reference inside the transfer request body. -/
structure HrefRef where
  href : String
  deriving DecidableEq, Repr

/-- The links object of the transfer request body. -/
structure TransferLinks where
  source : HrefRef
  destination : HrefRef
  deriving DecidableEq, Repr

/-- The amount object of the transfer request body; the value is kept as an
arbitrary integer because the source performs no validation on it. -/
structure TransferAmount where
  currency : String
  value : Int
  deriving DecidableEq, Repr

/-- The request body `createTransfer` posts to the transfers endpoint. -/
structure TransferRequestBody where
  links : TransferLinks
  amount : TransferAmount
  deriving DecidableEq, Repr

/-- The response of a Dwolla post, reduced to the only part the source reads:
the location header, which the fetch API reports as nullable. -/
structure DwollaResponse where
  location : Option String

/-- Observable events of the money-movement server actions, in order. -/
inductive DwollaEvent where
  | authLinkCall
  | onDemandAuthPost
  | fundingSourceCall (opts : FundingSourceOptions)
  | transferPost (body : TransferRequestBody)
  | logError
  deriving DecidableEq, Repr

/-- True exactly on a `fundingSourceCall` event. -/
def DwollaEvent.isFundingSourceCall : DwollaEvent → Bool
  | .fundingSourceCall _ => true
  | _ => false

/-- True exactly on a `transferPost` event. -/
def DwollaEvent.isTransferPost : DwollaEvent → Bool
  | .transferPost _ => true
  | _ => false

/-- Modelled from the spec: `createOnDemandAuthorization` lives in a Dwolla
actions module that is not under src/ (only its caller `addFundingSource`
is). Per spec section 4.1 step 1 it requests an authorization grant from the
payment network with no parameters, and per section 7 the uniform pattern
wraps the external call in a try/catch that logs the error and returns
undefined; so it never throws, and a failed network call yields `none`. -/
def createOnDemandAuthorization (network : Except Unit String) :
    Option String × List DwollaEvent :=
  match network with
  | .ok links => (some links, [.onDemandAuthPost])
  | .error _ => (none, [.onDemandAuthPost, .logError])

/-- Modelled from the spec: `createFundingSource` lives in a Dwolla actions
module that is not under src/ (only its caller `addFundingSource` is). Per
spec section 4.1 step 2 it submits the funding-source registration request
and returns the created funding source, and per section 7 it logs and
returns undefined on failure. -/
def createFundingSource (network : Except Unit String) :
    Option String × List DwollaEvent :=
  match network with
  | .ok fs => (some fs, [])
  | .error _ => (none, [.logError])

/-- Embedding of `addFundingSource` from the Dwolla actions in src (the
AuthForm.tsx source bundle): inside one try/catch it first awaits
`createOnDemandAuthorization()` (a call taking no parameters, whose
behaviour `authBehavior` may throw or return possibly-undefined links), then
builds the options record from exactly the customer id, the bank display
name, the processor token and those links, then awaits and returns
`createFundingSource(options)` (behaviour `fsBehavior`); any throw is
caught, logged and the action returns undefined (`none`). -/
def addFundingSource
    (authBehavior : Except Unit (Option String))
    (fsBehavior : FundingSourceOptions → Except Unit (Option String))
    (dwollaCustomerId processorToken bankName : String) :
    Option String × List DwollaEvent :=
  match authBehavior with
  | .error _ => (none, [.authLinkCall, .logError])
  | .ok dwollaAuthLinks =>
      let fundingSourceOptions : FundingSourceOptions :=
        { customerId := dwollaCustomerId
          fundingSourceName := bankName
          plaidToken := processorToken
          links := dwollaAuthLinks }
      match fsBehavior fundingSourceOptions with
      | .error _ => (none,
          [.authLinkCall, .fundingSourceCall fundingSourceOptions, .logError])
      | .ok r => (r, [.authLinkCall, .fundingSourceCall fundingSourceOptions])

/-- The transfer request body exactly as built inline by `createTransfer`:
source and destination hrefs from the two funding-source urls, and an amount
object with the hardcoded currency literal and the given value. -/
def mkTransferRequestBody (sourceFundingSourceUrl destinationFundingSourceUrl : String)
    (amount : Int) : TransferRequestBody :=
  { links :=
      { source := { href := sourceFundingSourceUrl }
        destination := { href := destinationFundingSourceUrl } }
    amount := { currency := "USD", value := amount } }

/-- Embedding of `createTransfer` from the Dwolla actions in src (the
AuthForm.tsx source bundle): builds the request body, posts it once to the
transfers endpoint (behaviour `post`), and returns the location header of
the response; any throw is caught, logged, and the action returns undefined
(outer `none`). The inner option models the nullable location header. -/
def createTransfer (post : TransferRequestBody → Except Unit DwollaResponse)
    (sourceFundingSourceUrl destinationFundingSourceUrl : String) (amount : Int) :
    Option (Option String) × List DwollaEvent :=
  let requestBody :=
    mkTransferRequestBody sourceFundingSourceUrl destinationFundingSourceUrl amount
  match post requestBody with
  | .ok res => (some res.location, [.transferPost requestBody])
  | .error _ => (none, [.transferPost requestBody, .logError])

/-- The body of the generated postUser SDK operation. -/
structure PostUserBody where
  name : String
  user_id : String
  deriving DecidableEq, Repr

/-- The body of the generated postBankPlaid SDK operation. -/
structure PostBankPlaidBody where
  processor_token : String
  deriving DecidableEq, Repr

/-- Sum of the request bodies of the embedded SDK operations. -/
inductive CheckbookBody where
  | user (b : PostUserBody)
  | bankPlaid (b : PostBankPlaidBody)
  deriving DecidableEq, Repr

/-- One HTTP request as handed by an SDK operation to core.fetch: path,
method, optional body. -/
structure SdkRequest where
  path : String
  method : String
  body : Option CheckbookBody
  deriving DecidableEq, Repr

/-- Embedding of the generated SDK method postUser from
src/.api/apis/checkbook-docs/index.ts: its whole body is one call
core.fetch("/v3/user", "post", body), whose result it returns; `fetch`
abstracts core.fetch. The `CheckbookBody.user` wrapper is only the sum
injection of the embedding. -/
def sdkPostUser {ρ : Type} (fetch : String → String → Option CheckbookBody → ρ)
    (body : PostUserBody) : ρ :=
  fetch "/v3/user" "post" (some (.user body))

/-- Embedding of the generated SDK method postBankPlaid from
src/.api/apis/checkbook-docs/index.ts: its whole body is one call
core.fetch("/v3/account/bank/iav/plaid", "post", body), whose result it
returns. -/
def sdkPostBankPlaid {ρ : Type} (fetch : String → String → Option CheckbookBody → ρ)
    (body : PostBankPlaidBody) : ρ :=
  fetch "/v3/account/bank/iav/plaid" "post" (some (.bankPlaid body))

/-- A fetch behaviour that records the single request issued. -/
def recordingFetch (p m : String) (b : Option CheckbookBody) : List SdkRequest :=
  [{ path := p, method := m, body := b }]

/-- Settlement of a vendor promise: resolved with data, or rejected. -/
inductive PromiseOutcome (α : Type) where
  | resolved (a : α)
  | rejected
  deriving DecidableEq, Repr

/-- Opaque data payload of a resolved Checkbook response. -/
structure CheckbookData where
  raw : String
  deriving DecidableEq, Repr

/-- Everything observable about one run of `createCheckbookCustomer`:
the value the async function resolves to, the requests issued, whether the
surrounding try/catch caught anything, whether a promise rejection was left
unhandled, and the data (if any) delivered to the discarded then-callback. -/
structure CheckbookCustomerRun where
  result : JsValue CheckbookData
  requests : List SdkRequest
  caughtByTry : Bool
  unhandledRejection : Bool
  thenData : Option CheckbookData
  deriving DecidableEq, Repr

/-- Embedding of `createCheckbookCustomer` from the Checkbook actions in src
(the AuthForm.tsx source bundle). The source calls sdk.auth (local
configuration, no throw) and then sdk.postUser(body).then(...) WITHOUT
awaiting or returning the promise, inside a try/catch. By JavaScript
semantics: the async function falls off the end and resolves undefined
before the promise settles; the try/catch catches only synchronous throws,
and nothing in the try block throws synchronously, so it never fires; the
then-callback receives the data on resolution, logs it and returns it into
the void; there is no rejection handler, so a rejection of the postUser
promise is unhandled. -/
def createCheckbookCustomer
    (postUserOutcome : PostUserBody → PromiseOutcome CheckbookData)
    (firstName lastName email : String) : CheckbookCustomerRun :=
  let body : PostUserBody := { name := firstName ++ "_" ++ lastName, user_id := email }
  { result := .undef
    requests := sdkPostUser recordingFetch body
    caughtByTry := false
    unhandledRejection :=
      match postUserOutcome body with
      | .rejected => true
      | .resolved _ => false
    thenData :=
      match postUserOutcome body with
      | .resolved d => some d
      | .rejected => none }

/-- Everything observable about one run of `connectToBankPlaid`: the value
the async function resolves to, the requests issued, whether the attached
promise catch handler ran (logging the error), and whether any rejection was
left unhandled. -/
structure ConnectRun where
  result : JsValue CheckbookData
  requests : List SdkRequest
  catchHandlerRan : Bool
  unhandledRejection : Bool
  deriving DecidableEq, Repr

/-- Embedding of `connectToBankPlaid` from the Checkbook actions in src (the
AuthForm.tsx source bundle). The source calls sdk.auth and then
sdk.postBankPlaid(body).then(log).catch(log) without awaiting or returning
the promise: the async function resolves undefined in every case, and a
rejection is consumed by the attached catch handler, which only logs. -/
def connectToBankPlaid
    (postBankPlaidOutcome : PostBankPlaidBody → PromiseOutcome CheckbookData)
    (plaidToken : String) : ConnectRun :=
  let body : PostBankPlaidBody := { processor_token := plaidToken }
  { result := .undef
    requests := sdkPostBankPlaid recordingFetch body
    catchHandlerRan :=
      match postBankPlaidOutcome body with
      | .rejected => true
      | .resolved _ => false
    unhandledRejection := false }

/-! ## Helper lemmas about the cookie jar -/

/-- Setting a cookie makes it readable back with exactly that value and
those attributes. -/
theorem getCookie_setCookie (jar : CookieJar) (n v : String) (o : CookieOptions) :
    getCookie (setCookie jar n v o) n = some (v, o) := by
  simp [getCookie, setCookie, List.find?]

/-- After deleting a cookie, it is no longer readable. -/
theorem getCookie_deleteCookie (jar : CookieJar) (n : String) :
    getCookie (deleteCookie jar n) n = none := by
  induction jar with
  | nil => rfl
  | cons c rest ih =>
      by_cases h : c.1 = n
      · simp [deleteCookie, getCookie, List.filter, h, ih]
      · simp [deleteCookie, getCookie, List.filter, List.find?, h, ih]

/-! ## Claims -/

/-- Claim C1: for every pair of funding-source endpoint references and every
numeric amount (including non-positive ones, since the amount is an
arbitrary integer with no local validation), createTransfer builds a request
whose amount carries the hardcoded currency "USD" and the given value and
whose links carry the two hrefs, submits it exactly once, and returns the
location header of the response on success, or undefined on failure. -/
theorem C1_createTransfer (post : TransferRequestBody → Except Unit DwollaResponse)
    (s d : String) (a : Int) :
    (mkTransferRequestBody s d a).amount = { currency := "USD", value := a } ∧
    (mkTransferRequestBody s d a).links =
      { source := { href := s }, destination := { href := d } } ∧
    (createTransfer post s d a).2.filter DwollaEvent.isTransferPost =
      [DwollaEvent.transferPost (mkTransferRequestBody s d a)] ∧
    (createTransfer post s d a).1 =
      (match post (mkTransferRequestBody s d a) with
       | .ok r => some r.location
       | .error _ => none) := by
  refine ⟨rfl, rfl, ?_, ?_⟩ <;>
    cases h : post (mkTransferRequestBody s d a) <;>
      simp [createTransfer, h, DwollaEvent.isTransferPost]

/-- Claim C2, counterexample: with the spec-modelled authorization step,
whose failure is swallowed (the payment-network post throws, the error is
logged and undefined is returned), addFundingSource nevertheless attempts
funding-source creation, so the claim that it is never attempted when the
authorization step fails is false at this input. -/
theorem C2_counterexample :
    (createOnDemandAuthorization (Except.error ())).1 = none ∧
    ((addFundingSource (Except.ok (createOnDemandAuthorization (Except.error ())).1)
        (fun _ => Except.ok none) "cust-1" "proc-tok-1" "Bank One").2.any
      DwollaEvent.isFundingSourceCall) = true :=
  ⟨rfl, rfl⟩

/-- Claim C2, amended: the funding-source creation step is skipped exactly
when the authorization step throws; when the spec-modelled authorization
step swallows its failure and returns undefined, funding-source creation is
still attempted. -/
theorem C2_addFundingSource_amended
    (fsBehavior : FundingSourceOptions → Except Unit (Option String))
    (cid tok bank : String) (e : Unit) :
    ((addFundingSource (Except.error e) fsBehavior cid tok bank).2.any
       DwollaEvent.isFundingSourceCall) = false ∧
    ((addFundingSource (Except.ok (createOnDemandAuthorization (Except.error e)).1)
        fsBehavior cid tok bank).2.any DwollaEvent.isFundingSourceCall) = true := by
  refine ⟨rfl, ?_⟩
  cases h : fsBehavior ⟨cid, bank, tok, none⟩ <;>
    simp [addFundingSource, createOnDemandAuthorization, h,
      DwollaEvent.isFundingSourceCall]

/-- Claim C3: addFundingSource first requests the authorization grant (a
call taking no parameters), every funding-source registration it submits is
built from exactly the customer id, display name, processor token and the
links returned by the grant step, a successful submission returns the
created funding source, and any thrown failure yields undefined with the
error only logged. -/
theorem C3_addFundingSource
    (authBehavior : Except Unit (Option String))
    (fsBehavior : FundingSourceOptions → Except Unit (Option String))
    (cid tok bank : String) :
    ((addFundingSource authBehavior fsBehavior cid tok bank).2.head? =
       some DwollaEvent.authLinkCall) ∧
    (∀ opts : FundingSourceOptions,
       DwollaEvent.fundingSourceCall opts ∈
           (addFundingSource authBehavior fsBehavior cid tok bank).2 →
       ∃ links, authBehavior = Except.ok links ∧
         opts = { customerId := cid, fundingSourceName := bank,
                  plaidToken := tok, links := links }) ∧
    (∀ links fs, authBehavior = Except.ok links →
       fsBehavior { customerId := cid, fundingSourceName := bank,
                    plaidToken := tok, links := links } = Except.ok fs →
       (addFundingSource authBehavior fsBehavior cid tok bank).1 = fs) ∧
    (∀ e, authBehavior = Except.error e →
       (addFundingSource authBehavior fsBehavior cid tok bank).1 = none ∧
       DwollaEvent.logError ∈ (addFundingSource authBehavior fsBehavior cid tok bank).2) ∧
    (∀ links e, authBehavior = Except.ok links →
       fsBehavior { customerId := cid, fundingSourceName := bank,
                    plaidToken := tok, links := links } = Except.error e →
       (addFundingSource authBehavior fsBehavior cid tok bank).1 = none ∧
       DwollaEvent.logError ∈
         (addFundingSource authBehavior fsBehavior cid tok bank).2) := by
  cases authBehavior with
  | error e0 =>
      refine ⟨rfl, ?_, ?_, ?_, ?_⟩
      · intro opts hmem
        simp [addFundingSource] at hmem
      · intro links fs hok
        simp at hok
      · intro e _
        exact ⟨rfl, by simp [addFundingSource]⟩
      · intro links e hok
        simp at hok
  | ok links0 =>
      cases h : fsBehavior ⟨cid, bank, tok, links0⟩ with
      | error e1 =>
          refine ⟨by simp [addFundingSource, h], ?_, ?_, ?_, ?_⟩
          · intro opts hmem
            simp [addFundingSource, h] at hmem
            exact ⟨links0, rfl, hmem⟩
          · intro links fs hok hfs
            obtain rfl : links0 = links := by simpa using hok
            rw [h] at hfs
            cases hfs
          · intro e he
            cases he
          · intro links e hok _
            obtain rfl : links0 = links := by simpa using hok
            exact ⟨by simp [addFundingSource, h], by simp [addFundingSource, h]⟩
      | ok r =>
          refine ⟨by simp [addFundingSource, h], ?_, ?_, ?_, ?_⟩
          · intro opts hmem
            simp [addFundingSource, h] at hmem
            exact ⟨links0, rfl, hmem⟩
          · intro links fs hok hfs
            obtain rfl : links0 = links := by simpa using hok
            rw [h] at hfs
            obtain rfl : r = fs := by simpa using hfs
            simp [addFundingSource, h]
          · intro e he
            cases he
          · intro links e hok hfs
            obtain rfl : links0 = links := by simpa using hok
            rw [h] at hfs
            cases hfs

/-- Claim C3, witness: with concrete successful behaviours the created
funding source is returned, and with a throwing authorization step the
result is undefined. -/
theorem C3_addFundingSource_witness :
    (addFundingSource (Except.ok (some "auth-links"))
        (fun _ => Except.ok (some "fs-url-1")) "cust-1" "tok-1" "Bank One").1 =
      some "fs-url-1" ∧
    (addFundingSource (Except.error ())
        (fun _ => Except.ok (some "fs-url-1")) "cust-1" "tok-1" "Bank One").1 = none :=
  ⟨(C3_addFundingSource (Except.ok (some "auth-links"))
      (fun _ => Except.ok (some "fs-url-1")) "cust-1" "tok-1" "Bank One").2.2.1
      (some "auth-links") (some "fs-url-1") rfl rfl,
   ((C3_addFundingSource (Except.error ())
      (fun _ => Except.ok (some "fs-url-1")) "cust-1" "tok-1" "Bank One").2.2.2.1
      () rfl).1⟩

/-- Claim C4: in every execution of logoutAccount, the vendor session
deletion (if it is reached at all) is attempted only after the cookie
deletion has been attempted, and the success indicator true is returned
exactly when the session client creation, the cookie deletion and the
vendor session deletion all complete without throwing. -/
theorem C4_logoutAccount (env : LogoutEnv) (jar : CookieJar) :
    precededBy UAEvent.isCookieDelete UAEvent.isVendorSessionDelete
        (logoutAccount env jar).2.2 = true ∧
    ((logoutAccount env jar).1 = some true ↔
      env.sessionClient = Except.ok () ∧ env.cookieDelete = Except.ok () ∧
        env.deleteSession = Except.ok ()) := by
  obtain ⟨sc, cd, ds⟩ := env
  cases sc <;> cases cd <;> cases ds <;>
    simp [logoutAccount, precededBy, UAEvent.isCookieDelete,
      UAEvent.isVendorSessionDelete]

/-- Claim C4, witness: the all-successful run deletes the cookie before the
vendor session and returns true. -/
theorem C4_logoutAccount_witness :
    precededBy UAEvent.isCookieDelete UAEvent.isVendorSessionDelete
        (logoutAccount ⟨Except.ok (), Except.ok (), Except.ok ()⟩ []).2.2 = true ∧
    (logoutAccount ⟨Except.ok (), Except.ok (), Except.ok ()⟩ []).1 = some true :=
  ⟨(C4_logoutAccount ⟨Except.ok (), Except.ok (), Except.ok ()⟩ []).1,
   (C4_logoutAccount ⟨Except.ok (), Except.ok (), Except.ok ()⟩ []).2.mpr
     ⟨rfl, rfl, rfl⟩⟩

/-- Claim C5: on every successful sign-in the appwrite-session cookie holds
the session secret with exactly the attributes path "/", httpOnly true,
sameSite strict, secure true; and on every successful sign-up, with the
session issued by the identity provider, the same holds. -/
theorem C5_sessionCookieAttributes :
    (∀ (env : SignInEnv) (email pw : String) (jar : CookieJar) (s : Session),
       (signIn env email pw jar).1 = some s →
       getCookie (signIn env email pw jar).2.1 "appwrite-session" =
         some (s.secret,
           { path := "/", httpOnly := true, sameSite := "strict", secure := true })) ∧
    (∀ (env : SignUpEnv) (ud : SignUpParams) (jar : CookieJar) (u : UserAccount)
       (s : Session),
       (signUp env ud jar).1 = some u →
       env.createEmailPasswordSession = Except.ok s →
       getCookie (signUp env ud jar).2.1 "appwrite-session" =
         some (s.secret,
           { path := "/", httpOnly := true, sameSite := "strict", secure := true })) := by
  constructor
  · rintro ⟨ac, cs⟩ email pw jar s h
    cases ac with
    | error _ => cases h
    | ok _ =>
        cases cs with
        | error _ => cases h
        | ok session =>
            obtain rfl : session = s := by
              simpa [signIn, parseStringify] using h
            simpa [signIn, parseStringify] using
              getCookie_setCookie jar "appwrite-session" session.secret
                { path := "/", httpOnly := true, sameSite := "strict", secure := true }
  · rintro ⟨ac, uid, acc, cs⟩ ud jar u s h hs
    cases ac with
    | error _ => cases h
    | ok _ =>
        cases acc with
        | error _ => cases h
        | ok newUserAccount =>
            cases cs with
            | error _ => cases hs
            | ok session =>
                obtain rfl : session = s := by simpa using hs
                simpa [signUp, parseStringify] using
                  getCookie_setCookie jar "appwrite-session" session.secret
                    { path := "/", httpOnly := true, sameSite := "strict",
                      secure := true }

/-- Claim C5, witness: concrete successful sign-in and sign-up runs produce
the appwrite-session cookie with the required attributes. -/
theorem C5_sessionCookieAttributes_witness :
    getCookie (signIn ⟨Except.ok (), Except.ok ⟨"sec-1"⟩⟩ "a@b.c" "pw" []).2.1
        "appwrite-session" =
      some ("sec-1",
        { path := "/", httpOnly := true, sameSite := "strict", secure := true }) ∧
    getCookie (signUp ⟨Except.ok (), "id-1", Except.ok ⟨"acct-1"⟩, Except.ok ⟨"sec-2"⟩⟩
        ⟨"Ann", "Lee", "a1", "c", "st", "pc", "dob", "ssn", "a@b.c", "pw"⟩ []).2.1
        "appwrite-session" =
      some ("sec-2",
        { path := "/", httpOnly := true, sameSite := "strict", secure := true }) :=
  ⟨C5_sessionCookieAttributes.1 ⟨Except.ok (), Except.ok ⟨"sec-1"⟩⟩ "a@b.c" "pw" []
      ⟨"sec-1"⟩ rfl,
   C5_sessionCookieAttributes.2
      ⟨Except.ok (), "id-1", Except.ok ⟨"acct-1"⟩, Except.ok ⟨"sec-2"⟩⟩
      ⟨"Ann", "Lee", "a1", "c", "st", "pc", "dob", "ssn", "a@b.c", "pw"⟩ []
      ⟨"acct-1"⟩ ⟨"sec-2"⟩ rfl rfl⟩

/-- Claim C6, counterexample: when the account fetch throws,
getLoggedInUser returns null, not undefined, so the claim that it returns
undefined on failure is false at this input. -/
theorem C6_counterexample :
    (getLoggedInUser ⟨Except.ok (), Except.error ()⟩).1 = JsValue.null ∧
    JsValue.isUndef (getLoggedInUser ⟨Except.ok (), Except.error ()⟩).1 = false :=
  ⟨rfl, rfl⟩

/-- Claim C6, amended: failures are swallowed and only logged everywhere,
but the sentinel differs: getLoggedInUser returns null whenever either
external call fails, while connectToBankPlaid and createCheckbookCustomer
resolve to undefined on every input (they never await the vendor promise);
a rejected bank-link promise is consumed by its logging catch handler. -/
theorem C6_silentFailure_amended (sc : Except Unit Unit)
    (ag : Except Unit UserAccount) (e e2 : Unit)
    (outU : PostUserBody → PromiseOutcome CheckbookData)
    (outB : PostBankPlaidBody → PromiseOutcome CheckbookData)
    (fn ln em tok : String) :
    (getLoggedInUser ⟨sc, Except.error e⟩).1 = JsValue.null ∧
    (getLoggedInUser ⟨Except.error e2, ag⟩).1 = JsValue.null ∧
    (connectToBankPlaid outB tok).result = JsValue.undef ∧
    (createCheckbookCustomer outU fn ln em).result = JsValue.undef ∧
    (connectToBankPlaid (fun _ => PromiseOutcome.rejected) tok).catchHandlerRan =
      true := by
  cases sc <;> exact ⟨rfl, rfl, rfl, rfl, rfl⟩

/-- Claim C7: each embedded generated SDK operation hands exactly one
request to core.fetch, with a fixed path and fixed method, and the input
body passed through unchanged. -/
theorem C7_sdkRequestMapping (bu : PostUserBody) (bp : PostBankPlaidBody) :
    sdkPostUser recordingFetch bu =
      [{ path := "/v3/user", method := "post", body := some (.user bu) }] ∧
    sdkPostBankPlaid recordingFetch bp =
      [{ path := "/v3/account/bank/iav/plaid", method := "post",
         body := some (.bankPlaid bp) }] :=
  ⟨rfl, rfl⟩

/-- Claim C8: createCheckbookCustomer resolves to undefined on every input,
in particular also when the vendor user-creation promise resolves (the data
reaches only the discarded then-callback), and a rejection of that promise
is left unhandled rather than caught by the surrounding try/catch. -/
theorem C8_createCheckbookCustomer
    (outcome : PostUserBody → PromiseOutcome CheckbookData)
    (fn ln em : String) (d : CheckbookData) :
    (createCheckbookCustomer outcome fn ln em).result = JsValue.undef ∧
    (createCheckbookCustomer (fun _ => PromiseOutcome.resolved d) fn ln em).result =
      JsValue.undef ∧
    (createCheckbookCustomer (fun _ => PromiseOutcome.resolved d) fn ln em).thenData =
      some d ∧
    (createCheckbookCustomer (fun _ => PromiseOutcome.rejected) fn ln
        em).unhandledRejection = true ∧
    (createCheckbookCustomer (fun _ => PromiseOutcome.rejected) fn ln
        em).caughtByTry = false :=
  ⟨rfl, rfl, rfl, rfl, rfl⟩

/-- Claim C9: if creating the email/password session throws, signIn returns
undefined, leaves the cookie jar unchanged, and performs no cookie set. -/
theorem C9_signIn_atomic (admin : Except Unit Unit) (e : Unit)
    (email pw : String) (jar : CookieJar) :
    (signIn ⟨admin, Except.error e⟩ email pw jar).1 = none ∧
    (signIn ⟨admin, Except.error e⟩ email pw jar).2.1 = jar ∧
    ((signIn ⟨admin, Except.error e⟩ email pw jar).2.2.all
       (fun ev => !ev.isCookieSet)) = true := by
  cases admin <;> exact ⟨rfl, rfl, rfl⟩

/-- Claim C10: when the vendor session deletion throws after the cookie
deletion has run, logoutAccount returns a non-success result (undefined),
yet the appwrite-session cookie is already gone from the jar and is not
restored; the cookie deletion event is in the trace. -/
theorem C10_logout_not_atomic (jar : CookieJar) :
    (logoutAccount ⟨Except.ok (), Except.ok (), Except.error ()⟩ jar).1 = none ∧
    getCookie (logoutAccount ⟨Except.ok (), Except.ok (), Except.error ()⟩ jar).2.1
        "appwrite-session" = none ∧
    UAEvent.cookieDeleteCall "appwrite-session" ∈
      (logoutAccount ⟨Except.ok (), Except.ok (), Except.error ()⟩ jar).2.2 :=
  ⟨rfl, getCookie_deleteCookie jar "appwrite-session", by simp [logoutAccount]⟩

end NextBanking
